import Mathlib

/-!
# Verification of the calendar-to-webhook reminder program

A shallow embedding of the Go program in `main.go` / the unnamed variant
(`part_000`).  The program fetches calendar events, filters those starting
strictly inside the "tomorrow" window anchored at UTC+9, formats a message
and POSTs it to a Discord webhook.

Modelling conventions:
* Instants are `Int` seconds since the Unix epoch.  Go's `time.Time`
  comparison (`After`/`Before`) compares instants; `.In(location)` changes
  only the displayed zone, never the instant, so it is the identity in the
  instant model and reappears only in formatting (`formatMinuteJST` adds
  the offset before breaking the instant into civil fields).
* Both source variants pin the zone to UTC+9 (`time.FixedZone("Asia/Tokyo",
  9*60*60)` in the unnamed variant; `time.LoadLocation("Asia/Tokyo")` in
  `main.go`, an offset that has been fixed at +9 h with no DST for all
  instants the program can see).
* A marker string (`Event.Start.DateTime` etc.) is modelled by what
  `time.Parse` does with it: `empty` for `""` (the code's non-emptiness
  test), `valid t` for a string parsing to instant `t`, `invalid` for a
  non-empty unparsable string.  Likewise `DateMarker.valid y m d` stands
  for a string in layout `2006-01-02`; parsing it yields midnight UTC of
  that civil date.
* Library calls with no repository logic (JSON (un)marshalling, the Google
  client construction, the HTTP POST itself) are modelled by their
  documented outcome, taken as an environment input.
-/

/-- Offset of the fixed zone used by the program: `9*60*60` seconds
(`time.FixedZone("Asia/Tokyo", 9*60*60)`). -/
def jstOffset : Int := 9 * 60 * 60

/-- Days since 1970-01-01 of the civil date `y-m-d` (proleptic Gregorian);
model of Go's internal date arithmetic (Howard Hinnant's `days_from_civil`).
Divisors are positive, so Lean's Euclidean `/` coincides with the floor
division the algorithm requires. -/
def daysFromCivil (y : Int) (m d : Nat) : Int :=
  let yAdj : Int := if m ≤ 2 then y - 1 else y
  let era : Int := yAdj / 400
  let yoe : Nat := (yAdj - era * 400).toNat
  let mp : Nat := if m > 2 then m - 3 else m + 9
  let doy : Nat := (153 * mp + 2) / 5 + d - 1
  let doe : Nat := yoe * 365 + yoe / 4 - yoe / 100 + doy
  era * 146097 + (doe : Int) - 719468

/-- Civil date `(y, m, d)` of the day `z` days after 1970-01-01; model of
Go's date extraction (Hinnant's `civil_from_days`). -/
def civilFromDays (z : Int) : Int × Nat × Nat :=
  let z' : Int := z + 719468
  let era : Int := z' / 146097
  let doe : Nat := (z' - era * 146097).toNat
  let yoe : Nat := (doe - doe / 1460 + doe / 36524 - doe / 146096) / 365
  let doy : Nat := doe - (365 * yoe + yoe / 4 - yoe / 100)
  let mp : Nat := (5 * doy + 2) / 153
  let d : Nat := doy - (153 * mp + 2) / 5 + 1
  let m : Nat := if mp < 10 then mp + 3 else mp - 9
  ((yoe : Int) + era * 400 + (if m ≤ 2 then 1 else 0), m, d)

/-- A `DateTime` marker string as `time.Parse(time.RFC3339, s)` sees it:
the empty string, a string parsing to the instant `t`, or a non-empty
unparsable string. -/
inductive TimeMarker where
  | empty : TimeMarker
  | valid : Int → TimeMarker
  | invalid : TimeMarker
deriving DecidableEq, Repr

/-- A `Date` marker string as `time.Parse("2006-01-02", s)` sees it. -/
inductive DateMarker where
  | empty : DateMarker
  | valid : Int → Nat → Nat → DateMarker
  | invalid : DateMarker
deriving DecidableEq, Repr

/-- `calendar.EventDateTime`: the `DateTime` and `Date` string fields of an
event's start or end. -/
structure EventDateTime where
  dateTime : TimeMarker
  date : DateMarker
deriving DecidableEq, Repr

/-- The fields of `calendar.Event` the program reads.  `end'` models the Go
field `End` (`end` is reserved in Lean). -/
structure Event where
  summary : String
  description : String
  location : String
  start : EventDateTime
  end' : EventDateTime
deriving DecidableEq, Repr

/-- Result of `time.Parse(time.RFC3339, s)`: the instant, or failure
(parsing the empty string also fails). -/
def parseRFC3339 : TimeMarker → Option Int
  | .empty => none
  | .invalid => none
  | .valid t => some t

/-- Result of `time.Parse("2006-01-02", s)`: midnight UTC of the parsed
civil date, or failure. -/
def parseDateOnly : DateMarker → Option Int
  | .empty => none
  | .invalid => none
  | .valid y m d => some (86400 * daysFromCivil y m d)

/-- Left-pad a number below 100 to two digits (Go layout fields `01`,
`02`, `15`, `04`). -/
def pad2 (n : Nat) : String :=
  if n < 10 then "0" ++ toString n else toString n

/-- Four-digit year field (Go layout `2006`), zero-padded for years below
1000. -/
def pad4 (y : Int) : String :=
  if 0 ≤ y ∧ y < 10 then "000" ++ toString y
  else if 0 ≤ y ∧ y < 100 then "00" ++ toString y
  else if 0 ≤ y ∧ y < 1000 then "0" ++ toString y
  else toString y

/-- `t.In(location).Format("2006-01-02 15:04")`: the instant `t` shifted to
UTC+9 and printed at minute precision — no seconds and no offset appear in
the layout. -/
def formatMinuteJST (t : Int) : String :=
  let totalMinutes : Int := (t + jstOffset) / 60
  let days : Int := totalMinutes / 1440
  let minuteOfDay : Nat := (totalMinutes % 1440).toNat
  let c := civilFromDays days
  pad4 c.1 ++ "-" ++ pad2 c.2.1 ++ "-" ++ pad2 c.2.2 ++ " " ++
    pad2 (minuteOfDay / 60) ++ ":" ++ pad2 (minuteOfDay % 60)

/-- `time.Date(now.Year(), now.Month(), now.Day()+1, 0, 0, 0, 0, location)`:
midnight (UTC+9) of the civil day after `now`'s civil day at UTC+9.
Go normalises the overflowing `Day()+1`, so this is exactly the next local
midnight. -/
def computeTomorrowStart (now : Int) : Int :=
  86400 * ((now + jstOffset) / 86400 + 1) - jstOffset

/-- `tomorrowStart.Add(24 * time.Hour)`. -/
def computeTomorrowEnd (tomorrowStart : Int) : Int :=
  tomorrowStart + 24 * 60 * 60

/-- The message built for an all-day event
(`fmt.Sprintf("@here\nイベント名: %s\n場所: %s\n終日イベント", ...)`). -/
def allDayMessage (e : Event) : String :=
  "@here\nイベント名: " ++ e.summary ++ "\n場所: " ++ e.location ++ "\n終日イベント"

/-- The message built for a timed event
(`fmt.Sprintf("@here\nイベント名: %s\n場所: %s\n開始時間: %s\n終了時間: %s", ...)`
with both instants formatted by `formatMinuteJST`). -/
def timedMessage (e : Event) (startTime endTime : Int) : String :=
  "@here\nイベント名: " ++ e.summary ++ "\n場所: " ++ e.location ++
    "\n開始時間: " ++ formatMinuteJST startTime ++
    "\n終了時間: " ++ formatMinuteJST endTime

/-- Outcome of the filter/format stage of one loop iteration. -/
inductive ProcessResult where
  | skipped : String → ProcessResult
  | filteredOut : ProcessResult
  | notified : String → ProcessResult
deriving DecidableEq, Repr

/-- One iteration of the `for _, event := range events` body up to (and
including) building the notification message: branch on the start markers,
parse, and keep the event iff
`startTime.After(tomorrowStart) && startTime.Before(tomorrowEnd)`. -/
def processEvent (tomorrowStart tomorrowEnd : Int) (e : Event) : ProcessResult :=
  match e.start.dateTime with
  | .valid startTime =>
    match parseRFC3339 e.end'.dateTime with
    | none => .skipped "Unable to parse event End DateTime"
    | some endTime =>
      if tomorrowStart < startTime ∧ startTime < tomorrowEnd then
        .notified (timedMessage e startTime endTime)
      else .filteredOut
  | .invalid => .skipped "Unable to parse event DateTime"
  | .empty =>
    match e.start.date with
    | .valid y m d =>
      match parseDateOnly e.end'.date with
      | none => .skipped "Unable to parse event End Date"
      | some _ =>
        let startTime := 86400 * daysFromCivil y m d
        if tomorrowStart < startTime ∧ startTime < tomorrowEnd then
          .notified (allDayMessage e)
        else .filteredOut
    | .invalid => .skipped "Unable to parse event Start Date"
    | .empty => .skipped ("No valid start time found for event: " ++ e.summary)

/-- Whether the iteration produced (and hence sent) a notification. -/
def isNotified : ProcessResult → Bool
  | .notified _ => true
  | _ => false

/-- The status check of `sendDiscordNotification` in `main.go`:
`resp.StatusCode != http.StatusOK` is the failure test, so only 200 is
success. -/
def sendOkStatus (status : Nat) : Bool :=
  status == 200

/-- The status check of `sendDiscordNotification` in the unnamed variant:
`resp.StatusCode != http.StatusOK && resp.StatusCode != http.StatusNoContent`,
so 200 and 204 are success. -/
def sendOkStatusV2 (status : Nat) : Bool :=
  status == 200 || status == 204

/-- `sendDiscordNotification`, parameterised by the variant's status check
and by the webhook's response (`none` models a transport failure of
`http.Post`; `some s` a response with status `s`).  Returns `.error` exactly
when the Go function returns a non-nil error. -/
def sendDiscordNotification (statusOk : Nat → Bool) (response : Option Nat) :
    Except String Unit :=
  match response with
  | none => .error "post error"
  | some s =>
    if statusOk s then .ok () else .error "failed to send notification"

/-- `true` iff `sendDiscordNotification` returns a nil error. -/
def sendSucceeds (statusOk : Nat → Bool) (response : Option Nat) : Bool :=
  match sendDiscordNotification statusOk response with
  | .ok _ => true
  | .error _ => false

/-- The `GOOGLE_CREDENTIALS` environment value as `getCalendarService` sees
it: unset/empty, set but not valid JSON, or valid JSON. -/
inductive Credentials where
  | absent : Credentials
  | invalidJSON : Credentials
  | validJSON : Credentials
deriving DecidableEq, Repr

/-- `getCalendarService`: fails if the credentials are absent
(`os.Getenv` returned `""`) or do not unmarshal as JSON; otherwise the
client is built (`calendar.NewService` performs no calendar fetch). -/
def getCalendarService : Credentials → Except String Unit
  | .absent => .error "GOOGLE_CREDENTIALS environment variable not set"
  | .invalidJSON => .error "unable to parse GOOGLE_CREDENTIALS"
  | .validJSON => .ok ()

/-- Outcome recorded for one event of the main loop. -/
inductive EventOutcome where
  | skipped : String → EventOutcome
  | filteredOut : EventOutcome
  | sent : String → EventOutcome
  | sendFailed : String → EventOutcome
deriving DecidableEq, Repr

/-- The body of the main loop for one event: filter/format, then POST when
a message was produced.  `respond msg` is the webhook's response to POSTing
`msg`.  A send failure is only logged (`log.Printf`) — it never aborts the
loop. -/
def eventStep (statusOk : Nat → Bool) (respond : String → Option Nat)
    (tomorrowStart tomorrowEnd : Int) (e : Event) : EventOutcome :=
  match processEvent tomorrowStart tomorrowEnd e with
  | .skipped d => .skipped d
  | .filteredOut => .filteredOut
  | .notified msg =>
    match sendDiscordNotification statusOk (respond msg) with
    | .ok _ => .sent msg
    | .error _ => .sendFailed msg

/-- The full `for` loop over the fetched events. -/
def runEvents (statusOk : Nat → Bool) (respond : String → Option Nat)
    (tomorrowStart tomorrowEnd : Int) (events : List Event) : List EventOutcome :=
  events.map (eventStep statusOk respond tomorrowStart tomorrowEnd)

/-- The webhook POSTs a run issues: one per notified event, sent or not. -/
def postsOf (outcomes : List EventOutcome) : List String :=
  outcomes.filterMap fun o =>
    match o with
    | .sent msg => some msg
    | .sendFailed msg => some msg
    | _ => none

/-- Observable trace of one run of `main`. -/
structure RunTrace where
  fatal : Option String
  calendarFetches : Nat
  webhookPosts : List String
  outcomes : List EventOutcome
deriving DecidableEq, Repr

/-- `main`: build the calendar client (fatal on error, before any network
call), compute the window once, fetch the events (`fetched = none` models a
failed `getEvents`, fatal after exactly one fetch attempt), then run the
loop with that single window value. -/
def runProgram (cred : Credentials) (fetched : Option (List Event)) (now : Int)
    (statusOk : Nat → Bool) (respond : String → Option Nat) : RunTrace :=
  match getCalendarService cred with
  | .error e => { fatal := some e, calendarFetches := 0, webhookPosts := [], outcomes := [] }
  | .ok _ =>
    let tomorrowStart := computeTomorrowStart now
    let tomorrowEnd := computeTomorrowEnd tomorrowStart
    match fetched with
    | none =>
      { fatal := some "Unable to retrieve events", calendarFetches := 1,
        webhookPosts := [], outcomes := [] }
    | some events =>
      let outcomes := runEvents statusOk respond tomorrowStart tomorrowEnd events
      { fatal := none, calendarFetches := 1, webhookPosts := postsOf outcomes,
        outcomes := outcomes }

/-- The end marker the loop body actually reads for an event's branch
parses: on the timestamp branch the end `DateTime`, on the date-only branch
the end `Date`; `true` on branches that never read the end. -/
def relevantEndParses (e : Event) : Bool :=
  match e.start.dateTime with
  | .valid _ =>
    match e.end'.dateTime with
    | .valid _ => true
    | _ => false
  | .invalid => true
  | .empty =>
    match e.start.date with
    | .valid _ _ _ =>
      match e.end'.date with
      | .valid _ _ _ => true
      | _ => false
    | _ => true

/-! ## Helper lemmas -/

/-- Unfolding of the loop body for an event whose start and end both carry a
`DateTime` marker that parses. -/
theorem processEvent_timed (ts te : Int) (e : Event) (st et : Int)
    (h1 : e.start.dateTime = .valid st) (h2 : e.end'.dateTime = .valid et) :
    processEvent ts te e =
      if ts < st ∧ st < te then .notified (timedMessage e st et)
      else .filteredOut := by
  simp [processEvent, h1, h2, parseRFC3339]

/-- Unfolding of the loop body for an event whose start `DateTime` is empty
and whose start and end both carry a `Date` marker that parses. -/
theorem processEvent_allday (ts te : Int) (e : Event) (y : Int) (m d : Nat)
    (y2 : Int) (m2 d2 : Nat)
    (h1 : e.start.dateTime = .empty) (h2 : e.start.date = .valid y m d)
    (h3 : e.end'.date = .valid y2 m2 d2) :
    processEvent ts te e =
      if ts < 86400 * daysFromCivil y m d ∧ 86400 * daysFromCivil y m d < te then
        .notified (allDayMessage e)
      else .filteredOut := by
  simp [processEvent, h1, h2, h3, parseDateOnly]

/-- The minute-precision format ignores the seconds of the instant: the
output equals the output at the instant truncated to its minute. -/
theorem formatMinuteJST_minute_trunc (t : Int) :
    formatMinuteJST t = formatMinuteJST (60 * (t / 60)) := by
  have h : (60 * (t / 60) + jstOffset) / 60 = (t + jstOffset) / 60 := by
    simp only [jstOffset]
    omega
  simp only [formatMinuteJST]
  rw [h]

/-- `sendDiscordNotification` succeeds on a delivered response exactly when
the variant's status check accepts the status. -/
theorem sendSucceeds_some (statusOk : Nat → Bool) (s : Nat) :
    sendSucceeds statusOk (some s) = statusOk s := by
  by_cases h : statusOk s = true <;>
    simp [sendSucceeds, sendDiscordNotification, h]

/-! ## Claims -/

/-- C1: for an event carrying a full timestamp start/end, a notification is
produced iff the parsed start instant is strictly greater than the window
start and strictly less than the window end (offset conversion preserves
the instant); an event starting exactly at either window bound is never
notified. -/
theorem C1_timed_strict_window (ts te : Int) (e : Event) (st et : Int)
    (h1 : e.start.dateTime = .valid st) (h2 : e.end'.dateTime = .valid et) :
    (isNotified (processEvent ts te e) = true ↔ ts < st ∧ st < te) ∧
    (st = ts → isNotified (processEvent ts te e) = false) ∧
    (st = te → isNotified (processEvent ts te e) = false) := by
  rw [processEvent_timed ts te e st et h1 h2]
  refine ⟨?_, ?_, ?_⟩ <;> by_cases hw : ts < st ∧ st < te <;>
    simp [hw, isNotified] <;> omega

/-- C1 witness: a timed event at 2025-01-02 10:00 JST is notified for the
window of a run whose `now` is 2025-01-01 09:00 JST. -/
theorem C1_witness :
    isNotified (processEvent 1735743600 1735830000
      { summary := "Meeting", description := "", location := "Room",
        start := { dateTime := .valid 1735779600, date := .empty },
        end' := { dateTime := .valid 1735783200, date := .empty } }) = true :=
  (C1_timed_strict_window 1735743600 1735830000 _ 1735779600 1735783200
    rfl rfl).1.mpr (by decide)

/-- C3: for an event carrying date-only start/end markers, the same strict
window rule is applied to midnight (UTC, as `time.Parse` with a date-only
layout produces) of the event's start date, `86400 * daysFromCivil y m d`. -/
theorem C3_allday_strict_window (ts te : Int) (e : Event) (y : Int) (m d : Nat)
    (y2 : Int) (m2 d2 : Nat)
    (h1 : e.start.dateTime = .empty) (h2 : e.start.date = .valid y m d)
    (h3 : e.end'.date = .valid y2 m2 d2) :
    isNotified (processEvent ts te e) = true ↔
      ts < 86400 * daysFromCivil y m d ∧ 86400 * daysFromCivil y m d < te := by
  rw [processEvent_allday ts te e y m d y2 m2 d2 h1 h2 h3]
  by_cases hw : ts < 86400 * daysFromCivil y m d ∧ 86400 * daysFromCivil y m d < te <;>
    simp [hw, isNotified]

/-- C3 witness: a date-only event on 2025-01-02 is notified for the window
of a run whose `now` is 2025-01-01 09:00 JST. -/
theorem C3_witness :
    isNotified (processEvent 1735743600 1735830000
      { summary := "AllDay", description := "", location := "",
        start := { dateTime := .empty, date := .valid 2025 1 2 },
        end' := { dateTime := .empty, date := .valid 2025 1 3 } }) = true :=
  (C3_allday_strict_window 1735743600 1735830000 _ 2025 1 2 2025 1 3
    rfl rfl rfl).mpr (by decide)

/-- C9: a date-only event whose start date is the run's target day is
always notified: its start parses to midnight UTC of that date, which is
09:00 local time of the target day, strictly inside the window. -/
theorem C9_allday_target_day_notified (now : Int) (e : Event) (y : Int) (m d : Nat)
    (y2 : Int) (m2 d2 : Nat)
    (h1 : e.start.dateTime = .empty) (h2 : e.start.date = .valid y m d)
    (h3 : e.end'.date = .valid y2 m2 d2)
    (hday : daysFromCivil y m d = (now + jstOffset) / 86400 + 1) :
    isNotified (processEvent (computeTomorrowStart now)
      (computeTomorrowEnd (computeTomorrowStart now)) e) = true ∧
    86400 * daysFromCivil y m d = computeTomorrowStart now + 9 * 60 * 60 := by
  rw [processEvent_allday _ _ e y m d y2 m2 d2 h1 h2 h3]
  simp only [computeTomorrowStart, computeTomorrowEnd, jstOffset] at *
  constructor
  · rw [if_pos (by omega)]
    rfl
  · omega

/-- C9 witness: the date-only event on the target day 2025-01-02 is
notified and its parsed start is 09:00 JST of that day. -/
theorem C9_witness :
    isNotified (processEvent (computeTomorrowStart 1735689600)
      (computeTomorrowEnd (computeTomorrowStart 1735689600))
      { summary := "AllDayTarget", description := "", location := "",
        start := { dateTime := .empty, date := .valid 2025 1 2 },
        end' := { dateTime := .empty, date := .valid 2025 1 3 } }) = true ∧
    86400 * daysFromCivil 2025 1 2 = computeTomorrowStart 1735689600 + 9 * 60 * 60 :=
  C9_allday_target_day_notified 1735689600 _ 2025 1 2 2025 1 3
    rfl rfl rfl (by decide)

/-- C6: the message of a notified all-day event is exactly the broadcast
mention token, the title line, the location line, and the fixed all-day
marker. -/
theorem C6_allday_message_exact (ts te : Int) (e : Event) (msg : String)
    (y : Int) (m d : Nat) (y2 : Int) (m2 d2 : Nat)
    (h1 : e.start.dateTime = .empty) (h2 : e.start.date = .valid y m d)
    (h3 : e.end'.date = .valid y2 m2 d2)
    (h4 : processEvent ts te e = .notified msg) :
    msg = "@here\nイベント名: " ++ e.summary ++ "\n場所: " ++ e.location ++
      "\n終日イベント" := by
  rw [processEvent_allday ts te e y m d y2 m2 d2 h1 h2 h3] at h4
  split at h4
  · simp only [ProcessResult.notified.injEq] at h4
    rw [← h4]
    rfl
  · exact ProcessResult.noConfusion h4

/-- C6 witness: the all-day event titled "Holiday" with location "Office"
on the target date produces exactly the claimed message. -/
theorem C6_witness :
    "@here\nイベント名: Holiday\n場所: Office\n終日イベント" =
      "@here\nイベント名: " ++ "Holiday" ++ "\n場所: " ++ "Office" ++
        "\n終日イベント" :=
  C6_allday_message_exact 1735743600 1735830000
    { summary := "Holiday", description := "", location := "Office",
      start := { dateTime := .empty, date := .valid 2025 1 2 },
      end' := { dateTime := .empty, date := .valid 2025 1 3 } }
    "@here\nイベント名: Holiday\n場所: Office\n終日イベント"
    2025 1 2 2025 1 3 rfl rfl rfl (by decide)

/-- C7: the message of a notified timed event carries the start and end
instants formatted at minute precision (`formatMinuteJST`, layout
`2006-01-02 15:04`): no seconds — the output only depends on the instant's
minute — and no offset appear. -/
theorem C7_timed_message_format (ts te : Int) (e : Event) (msg : String)
    (st et : Int)
    (h1 : e.start.dateTime = .valid st) (h2 : e.end'.dateTime = .valid et)
    (h4 : processEvent ts te e = .notified msg) :
    msg = "@here\nイベント名: " ++ e.summary ++ "\n場所: " ++ e.location ++
        "\n開始時間: " ++ formatMinuteJST st ++
        "\n終了時間: " ++ formatMinuteJST et ∧
    formatMinuteJST st = formatMinuteJST (60 * (st / 60)) ∧
    formatMinuteJST et = formatMinuteJST (60 * (et / 60)) := by
  refine ⟨?_, formatMinuteJST_minute_trunc st, formatMinuteJST_minute_trunc et⟩
  rw [processEvent_timed ts te e st et h1 h2] at h4
  split at h4
  · simp only [ProcessResult.notified.injEq] at h4
    rw [← h4]
    rfl
  · exact ProcessResult.noConfusion h4

/-- C7 witness: a timed event from 10:00 to 11:00 JST on the target date
2025-01-02 yields a message containing start "2025-01-02 10:00" and end
"2025-01-02 11:00". -/
theorem C7_witness :
    ("@here\nイベント名: Meeting\n場所: Room\n開始時間: 2025-01-02 10:00\n終了時間: 2025-01-02 11:00" =
      "@here\nイベント名: " ++ "Meeting" ++ "\n場所: " ++ "Room" ++
        "\n開始時間: " ++ formatMinuteJST 1735779600 ++
        "\n終了時間: " ++ formatMinuteJST 1735783200) ∧
    formatMinuteJST 1735779600 = formatMinuteJST (60 * ((1735779600 : Int) / 60)) ∧
    formatMinuteJST 1735783200 = formatMinuteJST (60 * ((1735783200 : Int) / 60)) :=
  C7_timed_message_format 1735743600 1735830000
    { summary := "Meeting", description := "", location := "Room",
      start := { dateTime := .valid 1735779600, date := .empty },
      end' := { dateTime := .valid 1735783200, date := .empty } }
    "@here\nイベント名: Meeting\n場所: Room\n開始時間: 2025-01-02 10:00\n終了時間: 2025-01-02 11:00"
    1735779600 1735783200 rfl rfl (by decide)

/-- C2 counterexample: in `main.go` the status check is
`resp.StatusCode != http.StatusOK`, so a 204 No Content response — claimed
to be a success — makes `sendDiscordNotification` return an error. -/
theorem C2_counterexample :
    sendSucceeds sendOkStatus (some 204) = false := by decide

/-- C2 amended: in the unnamed variant a delivered response succeeds iff
its status is 200 or 204; in `main.go` it succeeds iff the status is 200
(204 included among the failures); in both variants a transport failure
fails, and every failure is per-event and non-fatal — the loop still
produces one outcome per fetched event. -/
theorem C2_status_check_amended (s : Nat) (statusOk : Nat → Bool) (now : Int)
    (events : List Event) (respond : String → Option Nat) :
    sendSucceeds sendOkStatusV2 (some s) = (s == 200 || s == 204) ∧
    sendSucceeds sendOkStatus (some s) = (s == 200) ∧
    sendSucceeds statusOk none = false ∧
    (runProgram .validJSON (some events) now statusOk respond).outcomes.length =
      events.length := by
  refine ⟨sendSucceeds_some _ s, sendSucceeds_some _ s, rfl, ?_⟩
  simp [runProgram, getCalendarService, runEvents]

/-- C4 counterexample: an event populating BOTH start marker forms (a full
timestamp and a date) is not treated as malformed: it is processed on the
timestamp branch and, here, notified. -/
theorem C4_counterexample :
    (({ summary := "Mixed", description := "", location := "",
        start := { dateTime := .valid 1735779600, date := .valid 2025 1 2 },
        end' := { dateTime := .valid 1735783200, date := .valid 2025 1 3 } } :
        Event).start.dateTime ≠ TimeMarker.empty) ∧
    (({ summary := "Mixed", description := "", location := "",
        start := { dateTime := .valid 1735779600, date := .valid 2025 1 2 },
        end' := { dateTime := .valid 1735783200, date := .valid 2025 1 3 } } :
        Event).start.date ≠ DateMarker.empty) ∧
    isNotified (processEvent 1735743600 1735830000
      { summary := "Mixed", description := "", location := "",
        start := { dateTime := .valid 1735779600, date := .valid 2025 1 2 },
        end' := { dateTime := .valid 1735783200, date := .valid 2025 1 3 } }) =
      true := by
  refine ⟨by decide, by decide, ?_⟩
  decide

/-- C4 amended: the malformedness check inspects only the start markers,
with the timestamp form taking precedence.  An event whose start carries
neither marker is skipped with a diagnostic and never notified; an event
whose start marker form is present but whose matching end marker is empty
is skipped through the end-marker parse failure; but an event populating
both start forms is processed on the timestamp branch, not skipped. -/
theorem C4_start_marker_skip_amended (ts te : Int) (e : Event) :
    (e.start.dateTime = .empty → e.start.date = .empty →
      processEvent ts te e =
        .skipped ("No valid start time found for event: " ++ e.summary)) ∧
    (∀ t, e.start.dateTime = .valid t → e.end'.dateTime = .empty →
      processEvent ts te e = .skipped "Unable to parse event End DateTime") ∧
    (∀ y m d, e.start.dateTime = .empty → e.start.date = .valid y m d →
      e.end'.date = .empty →
      processEvent ts te e = .skipped "Unable to parse event End Date") := by
  refine ⟨fun h1 h2 => ?_, fun t h1 h2 => ?_, fun y m d h1 h2 h3 => ?_⟩
  · simp [processEvent, h1, h2]
  · simp [processEvent, h1, h2, parseRFC3339]
  · simp [processEvent, h1, h2, h3, parseDateOnly]

/-- C4 witness: an event with neither start marker is skipped with the
diagnostic. -/
theorem C4_witness :
    processEvent 0 86400
      { summary := "NoMarkers", description := "", location := "",
        start := { dateTime := .empty, date := .empty },
        end' := { dateTime := .empty, date := .empty } } =
      .skipped ("No valid start time found for event: " ++ "NoMarkers") :=
  (C4_start_marker_skip_amended 0 86400 _).1 rfl rfl

/-- C5: the target window is computed once per run: `tomorrowEnd` is
`tomorrowStart` plus 24 hours, `tomorrowStart` is the midnight (UTC+9) of
the civil day after `now`'s civil day at UTC+9, and the run's loop applies
that single window value to every fetched event. -/
theorem C5_window_once_per_run (now : Int) (events : List Event)
    (statusOk : Nat → Bool) (respond : String → Option Nat) :
    computeTomorrowEnd (computeTomorrowStart now) =
      computeTomorrowStart now + 24 * 60 * 60 ∧
    (computeTomorrowStart now + jstOffset) % 86400 = 0 ∧
    (computeTomorrowStart now + jstOffset) / 86400 =
      (now + jstOffset) / 86400 + 1 ∧
    (runProgram .validJSON (some events) now statusOk respond).outcomes =
      events.map (eventStep statusOk respond (computeTomorrowStart now)
        (computeTomorrowEnd (computeTomorrowStart now))) := by
  refine ⟨rfl, ?_, ?_, rfl⟩ <;> simp only [computeTomorrowStart, jstOffset] <;> omega

/-- C8: absent or non-JSON credentials make the run fail fatally in
`getCalendarService`, before the calendar fetch and before any webhook
POST. -/
theorem C8_bad_credentials_fatal (cred : Credentials)
    (fetched : Option (List Event)) (now : Int) (statusOk : Nat → Bool)
    (respond : String → Option Nat)
    (h : cred = .absent ∨ cred = .invalidJSON) :
    (runProgram cred fetched now statusOk respond).fatal.isSome = true ∧
    (runProgram cred fetched now statusOk respond).calendarFetches = 0 ∧
    (runProgram cred fetched now statusOk respond).webhookPosts = [] := by
  rcases h with h | h <;> subst h <;> exact ⟨rfl, rfl, rfl⟩

/-- C8 witness: with `GOOGLE_CREDENTIALS` unset the run is fatal with no
fetch and no POST. -/
theorem C8_witness :
    (runProgram .absent (some []) 0 (fun _ => true)
      (fun _ => none)).fatal.isSome = true ∧
    (runProgram .absent (some []) 0 (fun _ => true)
      (fun _ => none)).calendarFetches = 0 ∧
    (runProgram .absent (some []) 0 (fun _ => true)
      (fun _ => none)).webhookPosts = [] :=
  C8_bad_credentials_fatal .absent (some []) 0 (fun _ => true) (fun _ => none)
    (Or.inl rfl)

/-- C10: two events identical except for their end markers receive the same
notification decision whenever each event's branch-relevant end marker
parses: the end instant never influences whether the start falls in the
window. -/
theorem C10_end_marker_noninterference (ts te : Int) (e1 e2 : Event)
    (hsum : e1.summary = e2.summary) (hdesc : e1.description = e2.description)
    (hloc : e1.location = e2.location) (hstart : e1.start = e2.start)
    (hp1 : relevantEndParses e1 = true) (hp2 : relevantEndParses e2 = true) :
    isNotified (processEvent ts te e1) = isNotified (processEvent ts te e2) := by
  have hstart2 := hstart.symm
  cases hd : e1.start.dateTime with
  | valid st =>
    have hd2 : e2.start.dateTime = .valid st := by rw [← hstart, hd]
    simp only [relevantEndParses, hd] at hp1
    simp only [relevantEndParses, hd2] at hp2
    cases he1 : e1.end'.dateTime with
    | valid et1 =>
      cases he2 : e2.end'.dateTime with
      | valid et2 =>
        rw [processEvent_timed ts te e1 st et1 hd he1,
          processEvent_timed ts te e2 st et2 hd2 he2]
        by_cases hw : ts < st ∧ st < te <;> simp [hw, isNotified]
      | empty => rw [he2] at hp2; exact Bool.noConfusion hp2
      | invalid => rw [he2] at hp2; exact Bool.noConfusion hp2
    | empty => rw [he1] at hp1; exact Bool.noConfusion hp1
    | invalid => rw [he1] at hp1; exact Bool.noConfusion hp1
  | invalid =>
    have hd2 : e2.start.dateTime = .invalid := by rw [← hstart, hd]
    simp [processEvent, hd, hd2, isNotified]
  | empty =>
    have hd2 : e2.start.dateTime = .empty := by rw [← hstart, hd]
    cases hs : e1.start.date with
    | valid y m d =>
      have hs2 : e2.start.date = .valid y m d := by rw [← hstart, hs]
      simp only [relevantEndParses, hd, hs] at hp1
      simp only [relevantEndParses, hd2, hs2] at hp2
      cases he1 : e1.end'.date with
      | valid y1 m1 d1 =>
        cases he2 : e2.end'.date with
        | valid y2 m2 d2 =>
          rw [processEvent_allday ts te e1 y m d y1 m1 d1 hd hs he1,
            processEvent_allday ts te e2 y m d y2 m2 d2 hd2 hs2 he2]
          by_cases hw : ts < 86400 * daysFromCivil y m d ∧
              86400 * daysFromCivil y m d < te <;>
            simp [hw, isNotified]
        | empty => rw [he2] at hp2; exact Bool.noConfusion hp2
        | invalid => rw [he2] at hp2; exact Bool.noConfusion hp2
      | empty => rw [he1] at hp1; exact Bool.noConfusion hp1
      | invalid => rw [he1] at hp1; exact Bool.noConfusion hp1
    | empty =>
      have hs2 : e2.start.date = .empty := by rw [← hstart, hs]
      simp [processEvent, hd, hd2, hs, hs2, isNotified]
    | invalid =>
      have hs2 : e2.start.date = .invalid := by rw [← hstart, hs]
      simp [processEvent, hd, hd2, hs, hs2, isNotified]

/-- C10 witness: two timed events on the target day differing only in their
end instants (11:00 vs 23:00 JST) receive the same decision. -/
theorem C10_witness :
    isNotified (processEvent 1735743600 1735830000
      { summary := "Pair", description := "", location := "",
        start := { dateTime := .valid 1735779600, date := .empty },
        end' := { dateTime := .valid 1735783200, date := .empty } }) =
    isNotified (processEvent 1735743600 1735830000
      { summary := "Pair", description := "", location := "",
        start := { dateTime := .valid 1735779600, date := .empty },
        end' := { dateTime := .valid 1735826400, date := .empty } }) :=
  C10_end_marker_noninterference 1735743600 1735830000 _ _
    rfl rfl rfl rfl (by decide) (by decide)
